import Mathlib

/-!
Verification of the SocialVoice repository's voice-intent dispatch logic,
recording state machine and backend proxy, as a shallow embedding in Lean.

Sources embedded:
  - `src/components/FeedScreen.tsx` (the `FeedScreen` dispatcher `handleCommand`
    and the `MessageScreen` dispatcher `handleCommand` with its recording
    state machine),
  - `src/components/MobileBottomNav.tsx` (mic button disable logic),
  - `src/api/proxy.ts` (the serverless proxy `handler`).

Pure view state is passed explicitly; the external callbacks the components
call (`onLikePost`, `onViewPost`, `onNavigate`, `onSetTtsMessage`,
`onCommandProcessed`, service calls and so on) are modelled as a trace of
emitted effects, in invocation order.
-/

namespace SocialVoice

/-- The `AppView` enumeration from `src/types` (only the members the embedded
components mention). -/
inductive AppView where
  | FEED
  | FRIENDS
  | CONVERSATIONS
  | MESSAGES
  | SETTINGS
  | SEARCH_RESULTS
  | PROFILE
deriving DecidableEq, Repr

/-- The `ScrollState` tri-state (`'up' | 'down' | 'none'`) from `src/types`. -/
inductive ScrollState where
  | up
  | down
  | none
deriving DecidableEq, Repr

/-- Modelled from the spec: the `TTS_PROMPTS` table lives in `src/constants`,
which is not part of the provided sources; the spec describes the fallback as
a generic "I didn't understand" user-facing message. The exact prompt texts
are stand-ins; only their identity matters to the dispatch logic. -/
def ttsErrorGeneric : String := "Sorry, I didn't understand that. Please try again."

/-- Modelled from the spec: the `TTS_PROMPTS.feed_loaded` prompt
(`src/constants` is not part of the provided sources). -/
def ttsFeedLoaded : String := "Your feed is ready."

/-- Modelled from the spec: `TTS_PROMPTS.message_record_start`. -/
def ttsMessageRecordStart : String := "Recording started."

/-- Modelled from the spec: `TTS_PROMPTS.message_record_stopped(duration)`. -/
def ttsMessageRecordStopped (duration : Nat) : String :=
  "Recording stopped after " ++ toString duration ++ " seconds."

/-- Modelled from the spec: `TTS_PROMPTS.message_sent`. -/
def ttsMessageSent : String := "Message sent."

/-- Modelled from the spec: `TTS_PROMPTS.chat_deleted`. -/
def ttsChatDeleted : String := "Chat history deleted."

/-- Modelled from the spec: `TTS_PROMPTS.chat_theme_changed(name)`; the
`CHAT_THEMES` display-name table is also in `src/constants`, so the theme key
stands in for the display name. -/
def ttsChatThemeChanged (themeName : String) : String :=
  "Theme changed to " ++ themeName ++ "."

/-- A feed post, with the fields the `FeedScreen` dispatcher reads:
`p.id`, `p.author.name` (flattened to `authorName`), `p.isSponsored`,
`p.sponsorName`. -/
structure Post where
  id : String
  authorName : String
  isSponsored : Bool
  sponsorName : Option String := Option.none
deriving DecidableEq, Repr

/-- The slot fields the embedded dispatchers read from an intent response
(`slots?.target_name`, `slots?.theme_name`). -/
structure Slots where
  target_name : Option String := Option.none
  theme_name : Option String := Option.none
deriving DecidableEq, Repr

/-- The `{intent, slots}` result of `geminiService.processIntent`. -/
structure IntentResponse where
  intent : String
  slots : Slots
deriving DecidableEq, Repr

/-- JavaScript array indexing `posts[i]` with a possibly negative `Int`
index: defined (`some`) exactly when `0 ≤ i < posts.length`. -/
def postAt (posts : List Post) (i : Int) : Option Post :=
  if 0 ≤ i then posts.get? i.toNat else Option.none

/-- JavaScript truthiness of an optional string slot, as in the guards
`if (slots?.target_name)`: truthy exactly when the slot is present and not
the empty string (`""` is falsy); yields the guarded value when truthy. -/
def truthySlot : Option String → Option String
  | Option.some v => if v = "" then Option.none else Option.some v
  | Option.none => Option.none

/-- The local state of `FeedScreen`: `currentPostIndex` (`useState(-1)`),
`isPlaying` (`useState(false)`) and the `isProgrammaticScroll` ref. -/
structure FeedState where
  currentPostIndex : Int
  isPlaying : Bool
  programmaticScroll : Bool
deriving DecidableEq, Repr

/-- The callback invocations `FeedScreen.handleCommand` can emit, in order:
TTS messages, external mutations (`onLikePost`), view/navigation requests,
search-result updates, scroll-state updates and the completion callback. -/
inductive FeedEffect where
  | tts (message : String)
  | likePost (postId : String)
  | viewPost (postId : String)
  | openProfile (userName : String)
  | startCreatePost
  | navigate (view : AppView) (query : Option String)
  | setSearchResults (results : List String)
  | setScroll (s : ScrollState)
  | commandProcessed
deriving DecidableEq, Repr

/-- The case labels of the `FeedScreen.handleCommand` switch: one label per
`case` body (the three comment-view intents share one body, as in the
source), plus the `default` label. -/
inductive FeedCase where
  | nextPost
  | previousPost
  | playPost
  | pausePost
  | like
  | viewComments
  | openProfile
  | createPost
  | openFriendsPage
  | openMessages
  | openSettings
  | searchUser
  | scrollDown
  | scrollUp
  | stopScroll
  | help
  | unhandled
deriving DecidableEq, Repr

/-- Which switch case of `FeedScreen.handleCommand` an intent tag selects
(JavaScript `switch` semantics: first matching `case` label, `default`
otherwise). -/
def feedCaseOf (intent : String) : FeedCase :=
  if intent = "intent_next_post" then FeedCase.nextPost
  else if intent = "intent_previous_post" then FeedCase.previousPost
  else if intent = "intent_play_post" then FeedCase.playPost
  else if intent = "intent_pause_post" then FeedCase.pausePost
  else if intent = "intent_like" then FeedCase.like
  else if intent = "intent_comment" ∨ intent = "intent_view_comments" ∨
      intent = "intent_view_comments_by_author" then FeedCase.viewComments
  else if intent = "intent_open_profile" then FeedCase.openProfile
  else if intent = "intent_create_post" then FeedCase.createPost
  else if intent = "intent_open_friends_page" then FeedCase.openFriendsPage
  else if intent = "intent_open_messages" then FeedCase.openMessages
  else if intent = "intent_open_settings" then FeedCase.openSettings
  else if intent = "intent_search_user" then FeedCase.searchUser
  else if intent = "intent_scroll_down" then FeedCase.scrollDown
  else if intent = "intent_scroll_up" then FeedCase.scrollUp
  else if intent = "intent_stop_scroll" then FeedCase.stopScroll
  else if intent = "intent_help" then FeedCase.help
  else FeedCase.unhandled

/-- The body of the `try` block of `FeedScreen.handleCommand`: the `switch`
on the classified intent.  `searchUsers` models `geminiService.searchUsers`
(an awaited external call that may reject, propagating to the `catch`
block); every other branch is synchronous.  Returns the updated local state
and the effect trace of the branch. -/
def feedDispatch (intent : String) (slots : Slots)
    (searchUsers : String → Except Unit (List String))
    (posts : List Post) (st : FeedState) :
    Except Unit (FeedState × List FeedEffect) :=
  match feedCaseOf intent with
  | FeedCase.nextPost =>
    Except.ok ({ st with
      programmaticScroll := true,
      currentPostIndex :=
        if st.currentPostIndex < 0 then 0
        else (st.currentPostIndex + 1).tmod (posts.length : Int),
      isPlaying := true }, [])
  | FeedCase.previousPost =>
    Except.ok ({ st with
      programmaticScroll := true,
      currentPostIndex :=
        if st.currentPostIndex > 0 then st.currentPostIndex - 1
        else (posts.length : Int) - 1,
      isPlaying := true }, [])
  | FeedCase.playPost =>
    Except.ok (if st.currentPostIndex = -1 ∧ 0 < posts.length then
      { st with programmaticScroll := true, currentPostIndex := 0, isPlaying := true }
    else { st with isPlaying := true }, [])
  | FeedCase.pausePost =>
    Except.ok ({ st with isPlaying := false }, [])
  | FeedCase.like =>
    Except.ok (match truthySlot slots.target_name with
      | Option.some targetName =>
        match posts.find? (fun p => !p.isSponsored && p.authorName = targetName) with
        | Option.some postToLike => (st, [FeedEffect.likePost postToLike.id])
        | Option.none =>
          (st, [FeedEffect.tts ("I couldn't find a post by " ++ targetName ++ " to like.")])
      | Option.none =>
        if st.currentPostIndex ≠ -1 then
          match postAt posts st.currentPostIndex with
          | Option.some p => if p.isSponsored then (st, []) else (st, [FeedEffect.likePost p.id])
          | Option.none => (st, [])
        else (st, []))
  | FeedCase.viewComments =>
    Except.ok (match truthySlot slots.target_name with
      | Option.some targetName =>
        match posts.find? (fun p => !p.isSponsored && p.authorName = targetName) with
        | Option.some postToView => (st, [FeedEffect.viewPost postToView.id])
        | Option.none =>
          (st, [FeedEffect.tts ("I can't find a post by " ++ targetName ++ " to view comments on.")])
      | Option.none =>
        if st.currentPostIndex ≠ -1 then
          match postAt posts st.currentPostIndex with
          | Option.some p => if p.isSponsored then (st, []) else (st, [FeedEffect.viewPost p.id])
          | Option.none => (st, [])
        else (st, []))
  | FeedCase.openProfile =>
    Except.ok (match truthySlot slots.target_name with
      | Option.some targetName => (st, [FeedEffect.openProfile targetName])
      | Option.none =>
        if st.currentPostIndex ≠ -1 then
          match postAt posts st.currentPostIndex with
          | Option.some p =>
            if p.isSponsored then (st, []) else (st, [FeedEffect.openProfile p.authorName])
          | Option.none => (st, [])
        else (st, []))
  | FeedCase.createPost =>
    Except.ok (st, [FeedEffect.startCreatePost])
  | FeedCase.openFriendsPage =>
    Except.ok (st, [FeedEffect.navigate AppView.FRIENDS Option.none])
  | FeedCase.openMessages =>
    Except.ok (st, [FeedEffect.navigate AppView.CONVERSATIONS Option.none])
  | FeedCase.openSettings =>
    Except.ok (st, [FeedEffect.navigate AppView.SETTINGS Option.none])
  | FeedCase.searchUser =>
    match truthySlot slots.target_name with
    | Option.some query =>
      match searchUsers query with
      | Except.error e => Except.error e
      | Except.ok results =>
        Except.ok (st, [FeedEffect.setSearchResults results,
          FeedEffect.navigate AppView.SEARCH_RESULTS (Option.some query)])
    | Option.none => Except.ok (st, [])
  | FeedCase.scrollDown =>
    Except.ok (st, [FeedEffect.setScroll ScrollState.down])
  | FeedCase.scrollUp =>
    Except.ok (st, [FeedEffect.setScroll ScrollState.up])
  | FeedCase.stopScroll =>
    Except.ok (st, [FeedEffect.setScroll ScrollState.none])
  | FeedCase.help =>
    Except.ok (st, [FeedEffect.tts ttsFeedLoaded])
  | FeedCase.unhandled =>
    Except.ok (st, [FeedEffect.tts ttsErrorGeneric])

/-- The intent tags `FeedScreen.handleCommand` has explicit `case` labels
for; any other tag falls into the `default` branch. -/
def feedHandledIntents : List String :=
  ["intent_next_post", "intent_previous_post", "intent_play_post",
   "intent_pause_post", "intent_like", "intent_comment", "intent_view_comments",
   "intent_view_comments_by_author", "intent_open_profile", "intent_create_post",
   "intent_open_friends_page", "intent_open_messages", "intent_open_settings",
   "intent_search_user", "intent_scroll_down", "intent_scroll_up",
   "intent_stop_scroll", "intent_help"]

/-- Model of `FeedScreen.handleCommand`: try `processIntent` (its result, or its
rejection, is `classify`) and dispatch; `catch` emits the generic error
prompt; `finally` invokes `onCommandProcessed`. -/
def handleCommandFeed (classify : Except Unit IntentResponse)
    (searchUsers : String → Except Unit (List String))
    (posts : List Post) (st : FeedState) : FeedState × List FeedEffect :=
  let r : FeedState × List FeedEffect :=
    match classify with
    | Except.error _ => (st, [FeedEffect.tts ttsErrorGeneric])
    | Except.ok resp =>
      match feedDispatch resp.intent resp.slots searchUsers posts st with
      | Except.error _ => (st, [FeedEffect.tts ttsErrorGeneric])
      | Except.ok out => out
  (r.1, r.2 ++ [FeedEffect.commandProcessed])

/-- The `RecordingState` enumeration from `src/types`. -/
inductive RecordingState where
  | IDLE
  | RECORDING
  | PREVIEW
  | UPLOADING
deriving DecidableEq, Repr

/-- A chat message, with the fields `MessageScreen` reads. -/
structure Msg where
  id : String
  senderId : String
  duration : Nat
deriving DecidableEq, Repr

/-- The local state of `MessageScreen` the dispatcher can touch:
`recordingState`, `duration` (the recording timer), `messages`,
`currentTheme`, and the two menu flags. -/
structure MsgState where
  recordingState : RecordingState
  duration : Nat
  messages : List Msg
  currentTheme : String
  menuOpen : Bool
  themePickerOpen : Bool
deriving DecidableEq, Repr

/-- The callback/service invocations `MessageScreen` can emit, in order. -/
inductive MsgEffect where
  | tts (message : String)
  | sendMessageCall (duration : Nat)
  | deleteChatHistory
  | goBack
  | updateChatSettings (theme : String)
  | schedulePlay (msgId : String)
  | commandProcessed
deriving DecidableEq, Repr

/-- Model of `MessageScreen.startRecording`: set state `RECORDING`, speak the
record-start prompt, restart the timer (`setDuration(0)`). -/
def startRecordingM (st : MsgState) : MsgState × List MsgEffect :=
  ({ st with recordingState := RecordingState.RECORDING, duration := 0 },
   [MsgEffect.tts ttsMessageRecordStart])

/-- Model of `MessageScreen.stopRecording`: stop the timer, set state `PREVIEW`,
speak the record-stopped prompt with the captured duration. -/
def stopRecordingM (st : MsgState) : MsgState × List MsgEffect :=
  ({ st with recordingState := RecordingState.PREVIEW },
   [MsgEffect.tts (ttsMessageRecordStopped st.duration)])

/-- The synchronous prefix of `MessageScreen.sendMessage`, up to the `await`
of `geminiService.sendMessage`: set state `UPLOADING`, speak "Sending...",
and issue the upload call. -/
def sendMessageStart (st : MsgState) : MsgState × List MsgEffect :=
  ({ st with recordingState := RecordingState.UPLOADING },
   [MsgEffect.tts "Sending...", MsgEffect.sendMessageCall st.duration])

/-- The continuation of `MessageScreen.sendMessage` after the upload
completes: append the new message, speak the sent prompt, return to `IDLE`,
reset the duration, and schedule playback of the new message. -/
def sendMessageComplete (newMessage : Msg) (st : MsgState) : MsgState × List MsgEffect :=
  ({ st with
     messages := st.messages ++ [newMessage]
     recordingState := RecordingState.IDLE
     duration := 0 },
   [MsgEffect.tts ttsMessageSent, MsgEffect.schedulePlay newMessage.id])

/-- Model of `MessageScreen.handleDeleteChat`: a `window.confirm` gate (its outcome is
the `confirmDelete` argument), then delete, speak, and go back. -/
def handleDeleteChatM (confirmDelete : Bool) (st : MsgState) : MsgState × List MsgEffect :=
  if confirmDelete then
    (st, [MsgEffect.deleteChatHistory, MsgEffect.tts ttsChatDeleted, MsgEffect.goBack])
  else (st, [])

/-- Model of `MessageScreen.handleThemeChange`: set the theme, persist it via
`updateChatSettings`, close both menus, speak the theme-changed prompt. -/
def handleThemeChangeM (theme : String) (st : MsgState) : MsgState × List MsgEffect :=
  ({ st with currentTheme := theme, themePickerOpen := false, menuOpen := false },
   [MsgEffect.updateChatSettings theme, MsgEffect.tts (ttsChatThemeChanged theme)])

/-- The body of the `try` block of `MessageScreen.handleCommand`: the
`switch` on the classified intent.  `themes` models the key set of the
`CHAT_THEMES` table (`src/constants` is not part of the provided sources).
Note the `switch` has no `default` case: an unrecognized intent does
nothing. -/
def msgDispatch (intent : String) (slots : Slots) (confirmDelete : Bool)
    (themes : List String) (st : MsgState) : MsgState × List MsgEffect :=
  if intent = "intent_record_message" then
    if st.recordingState = RecordingState.IDLE then startRecordingM st else (st, [])
  else if intent = "intent_stop_recording" then
    if st.recordingState = RecordingState.RECORDING then stopRecordingM st else (st, [])
  else if intent = "intent_send_chat_message" then
    if st.recordingState = RecordingState.PREVIEW then sendMessageStart st else (st, [])
  else if intent = "intent_re_record" then
    if st.recordingState = RecordingState.PREVIEW then startRecordingM st else (st, [])
  else if intent = "intent_delete_chat" then
    handleDeleteChatM confirmDelete st
  else if intent = "intent_change_chat_theme" then
    match slots.theme_name with
    | Option.some tn =>
      let themeName := String.mk (tn.data.map Char.toLower)
      if themeName ≠ "" ∧ themeName ∈ themes then handleThemeChangeM themeName st
      else (st, [])
    | Option.none => (st, [])
  else (st, [])

/-- The intent tags `MessageScreen.handleCommand` has explicit `case`
labels for. -/
def msgHandledIntents : List String :=
  ["intent_record_message", "intent_stop_recording", "intent_send_chat_message",
   "intent_re_record", "intent_delete_chat", "intent_change_chat_theme"]

/-- Model of `MessageScreen.handleCommand`: try `processIntent` and dispatch; the
`catch` block only logs to the console (it emits no user-facing message);
`finally` invokes `onCommandProcessed`. -/
def handleCommandMsg (classify : Except Unit IntentResponse)
    (confirmDelete : Bool) (themes : List String) (st : MsgState) :
    MsgState × List MsgEffect :=
  let r : MsgState × List MsgEffect :=
    match classify with
    | Except.error _ => (st, [])
    | Except.ok resp => msgDispatch resp.intent resp.slots confirmDelete themes st
  (r.1, r.2 ++ [MsgEffect.commandProcessed])

/-- An initial `MessageScreen` state (mount: `IDLE`, empty timer, default
theme, menus closed). -/
def initMsgState : MsgState :=
  { recordingState := RecordingState.IDLE, duration := 0, messages := [],
    currentTheme := "default", menuOpen := false, themePickerOpen := false }

/-! ### The serverless proxy (`src/api/proxy.ts`) -/

/-- A JSON value tree, as produced by `JSON.parse`.  Number literals keep
their validated lexeme; the proxy never inspects numeric values. -/
inductive Json where
  | null
  | bool (b : Bool)
  | num (lexeme : String)
  | str (s : String)
  | arr (items : List Json)
  | obj (fields : List (String × Json))
deriving Repr, Inhabited

/-- JSON insignificant whitespace. -/
def isJsonWs (c : Char) : Bool :=
  c = ' ' || c = '\t' || c = '\n' || c = '\r'

/-- Drop leading JSON whitespace. -/
def skipWs : List Char → List Char
  | [] => []
  | c :: cs => if isJsonWs c then skipWs cs else c :: cs

/-- Value of one hexadecimal digit. -/
def hexVal (c : Char) : Option Nat :=
  if '0' ≤ c ∧ c ≤ '9' then Option.some (c.toNat - '0'.toNat)
  else if 'a' ≤ c ∧ c ≤ 'f' then Option.some (c.toNat - 'a'.toNat + 10)
  else if 'A' ≤ c ∧ c ≤ 'F' then Option.some (c.toNat - 'A'.toNat + 10)
  else Option.none

/-- The single-character JSON string escapes. -/
def unescapeChar (c : Char) : Option Char :=
  if c = '"' then Option.some '"'
  else if c = '\\' then Option.some '\\'
  else if c = '/' then Option.some '/'
  else if c = 'b' then Option.some (Char.ofNat 8)
  else if c = 'f' then Option.some (Char.ofNat 12)
  else if c = 'n' then Option.some '\n'
  else if c = 'r' then Option.some '\r'
  else if c = 't' then Option.some '\t'
  else Option.none

/-- Parse the remainder of a JSON string literal (the opening quote already
consumed): returns the decoded characters and the input past the closing
quote.  Raw control characters are rejected, as `JSON.parse` does. -/
def parseStringChars : Nat → List Char → Option (List Char × List Char)
  | 0, _ => Option.none
  | _, [] => Option.none
  | fuel + 1, c :: cs =>
    if c = '"' then Option.some ([], cs)
    else if c = '\\' then
      match cs with
      | 'u' :: h1 :: h2 :: h3 :: h4 :: rest =>
        match hexVal h1, hexVal h2, hexVal h3, hexVal h4 with
        | Option.some a, Option.some b, Option.some d, Option.some e =>
          (match parseStringChars fuel rest with
           | Option.some (out, rem) =>
             Option.some (Char.ofNat (((a * 16 + b) * 16 + d) * 16 + e) :: out, rem)
           | Option.none => Option.none)
        | _, _, _, _ => Option.none
      | e :: rest =>
        (match unescapeChar e with
         | Option.some ec =>
           (match parseStringChars fuel rest with
            | Option.some (out, rem) => Option.some (ec :: out, rem)
            | Option.none => Option.none)
         | Option.none => Option.none)
      | [] => Option.none
    else if c.toNat < 32 then Option.none
    else
      match parseStringChars fuel cs with
      | Option.some (out, rem) => Option.some (c :: out, rem)
      | Option.none => Option.none

/-- Whether the input begins with a decimal digit. -/
def startsWithDigit : List Char → Bool
  | d :: _ => d.isDigit
  | [] => false

/-- Take a maximal run of decimal digits. -/
def takeDigits : List Char → List Char × List Char
  | [] => ([], [])
  | c :: cs =>
    if c.isDigit then
      let (ds, rest) := takeDigits cs
      (c :: ds, rest)
    else ([], c :: cs)

/-- Optional fraction part `.digits` of a JSON number. -/
def parseFrac (cs : List Char) : Option (List Char × List Char) :=
  match cs with
  | '.' :: fr =>
    let (ds, rest) := takeDigits fr
    if ds = [] then Option.none else Option.some ('.' :: ds, rest)
  | _ => Option.some ([], cs)

/-- Optional exponent part `(e|E)(+|-)?digits` of a JSON number. -/
def parseExp (cs : List Char) : Option (List Char × List Char) :=
  match cs with
  | c :: fr =>
    if c = 'e' ∨ c = 'E' then
      let (sgn, fr2) :=
        match fr with
        | '+' :: r => ((['+'] : List Char), r)
        | '-' :: r => ((['-'] : List Char), r)
        | _ => (([] : List Char), fr)
      let (ds, rest) := takeDigits fr2
      if ds = [] then Option.none else Option.some (c :: (sgn ++ ds), rest)
    else Option.some ([], cs)
  | [] => Option.some ([], [])

/-- Parse a JSON number per the JSON grammar (`-? (0 | [1-9][0-9]*) frac?
exp?`), returning its lexeme. -/
def parseNumber (cs : List Char) : Option (String × List Char) :=
  let (signChars, cs1) :=
    match cs with
    | '-' :: rest => ((['-'] : List Char), rest)
    | _ => (([] : List Char), cs)
  match cs1 with
  | [] => Option.none
  | c :: rest1 =>
    if ¬ c.isDigit then Option.none
    else
      let (intChars, cs2) :=
        if c = '0' then ((['0'] : List Char), rest1) else takeDigits cs1
      if c = '0' ∧ startsWithDigit cs2 = true then
        Option.none
      else
        match parseFrac cs2 with
        | Option.none => Option.none
        | Option.some (fracChars, cs3) =>
          match parseExp cs3 with
          | Option.none => Option.none
          | Option.some (expChars, cs4) =>
            Option.some (String.mk (signChars ++ intChars ++ fracChars ++ expChars), cs4)

mutual

/-- Parse one JSON value (leading whitespace allowed), fuel-indexed. -/
def parseValue : Nat → List Char → Option (Json × List Char)
  | 0, _ => Option.none
  | fuel + 1, cs =>
    match skipWs cs with
    | [] => Option.none
    | c :: rest =>
      if c = '{' then
        match skipWs rest with
        | '}' :: rem => Option.some (Json.obj [], rem)
        | cs2 =>
          match parseObjItems fuel cs2 with
          | Option.some (fs, rem) => Option.some (Json.obj fs, rem)
          | Option.none => Option.none
      else if c = '[' then
        match skipWs rest with
        | ']' :: rem => Option.some (Json.arr [], rem)
        | cs2 =>
          match parseArrItems fuel cs2 with
          | Option.some (js, rem) => Option.some (Json.arr js, rem)
          | Option.none => Option.none
      else if c = '"' then
        match parseStringChars (rest.length + 1) rest with
        | Option.some (content, rem) => Option.some (Json.str (String.mk content), rem)
        | Option.none => Option.none
      else
        match c :: rest with
        | 't' :: 'r' :: 'u' :: 'e' :: rem => Option.some (Json.bool true, rem)
        | 'f' :: 'a' :: 'l' :: 's' :: 'e' :: rem => Option.some (Json.bool false, rem)
        | 'n' :: 'u' :: 'l' :: 'l' :: rem => Option.some (Json.null, rem)
        | cs3 =>
          match parseNumber cs3 with
          | Option.some (lex, rem) => Option.some (Json.num lex, rem)
          | Option.none => Option.none

/-- Parse the (non-empty) comma-separated items of a JSON array, up to and
including the closing bracket. -/
def parseArrItems : Nat → List Char → Option (List Json × List Char)
  | 0, _ => Option.none
  | fuel + 1, cs =>
    match parseValue fuel cs with
    | Option.none => Option.none
    | Option.some (j, rem) =>
      match skipWs rem with
      | ',' :: rem2 =>
        (match parseArrItems fuel rem2 with
         | Option.some (js, rem3) => Option.some (j :: js, rem3)
         | Option.none => Option.none)
      | ']' :: rem2 => Option.some ([j], rem2)
      | _ => Option.none

/-- Parse the (non-empty) comma-separated `"key": value` fields of a JSON
object, up to and including the closing brace. -/
def parseObjItems : Nat → List Char → Option (List (String × Json) × List Char)
  | 0, _ => Option.none
  | fuel + 1, cs =>
    match skipWs cs with
    | '"' :: rest =>
      (match parseStringChars (rest.length + 1) rest with
       | Option.some (key, rem) =>
         (match skipWs rem with
          | ':' :: rem2 =>
            (match parseValue fuel rem2 with
             | Option.some (v, rem3) =>
               (match skipWs rem3 with
                | ',' :: rem4 =>
                  (match parseObjItems fuel rem4 with
                   | Option.some (fs, rem5) => Option.some ((String.mk key, v) :: fs, rem5)
                   | Option.none => Option.none)
                | '}' :: rem4 => Option.some ([(String.mk key, v)], rem4)
                | _ => Option.none)
             | Option.none => Option.none)
          | _ => Option.none)
       | Option.none => Option.none)
    | _ => Option.none

end

/-- The `VoiceState` enumeration from `src/types` (the members
`MobileBottomNav` mentions). -/
inductive VoiceState where
  | IDLE
  | LISTENING
  | PROCESSING
deriving DecidableEq, Repr

/-- The base class string of `getFabClass`. -/
def fabBaseClass : String :=
  "-mt-8 w-16 h-16 rounded-full flex items-center justify-center text-white shadow-lg shadow-rose-900/50 transition-all duration-300 ease-in-out"

/-- Model of `MobileBottomNav.getFabClass`. -/
def getFabClass (v : VoiceState) : String :=
  match v with
  | VoiceState.LISTENING => fabBaseClass ++ " bg-rose-500 ring-4 ring-rose-500/50 animate-pulse"
  | VoiceState.PROCESSING => fabBaseClass ++ " bg-yellow-600 cursor-not-allowed"
  | VoiceState.IDLE => fabBaseClass ++ " bg-rose-600 hover:bg-rose-500 hover:scale-105"

/-- The mic button's `disabled` prop:
`disabled={voiceState === VoiceState.PROCESSING}`. -/
def micButtonDisabled (v : VoiceState) : Bool :=
  decide (v = VoiceState.PROCESSING)

/-- Modelled from the spec's external collaborators: per DOM semantics, a
disabled button never fires its `onClick` handler, so `onMicClick` fires
only when the button is enabled. -/
def micClickFires (v : VoiceState) : Bool :=
  !(micButtonDisabled v)

/-! ### Theorems for the claims -/

/-- Truncating and Euclidean remainder agree on non-negative operands
(JavaScript `%` is the truncating remainder). -/
theorem tmod_eq_emod_of_nonneg (a b : Int) (ha : 0 ≤ a) (hb : 0 ≤ b) :
    a.tmod b = a % b := by
  obtain ⟨m, rfl⟩ := Int.eq_ofNat_of_zero_le ha
  obtain ⟨n, rfl⟩ := Int.eq_ofNat_of_zero_le hb
  rfl

/-- C3: for every non-empty post list and every reachable current post index
(−1 meaning "no active post", or a non-negative index), dispatching a
command classified as `intent_next_post` advances `currentPostIndex` to
`(i + 1) mod posts.length`, wrapping to `0` when the last post is
current. -/
theorem nextPost_advances_index_mod_count (slots : Slots)
    (searchUsers : String → Except Unit (List String))
    (posts : List Post) (st : FeedState)
    (_hposts : posts ≠ []) (hidx : -1 ≤ st.currentPostIndex) :
    ((handleCommandFeed (Except.ok ⟨"intent_next_post", slots⟩) searchUsers posts st).1).currentPostIndex
      = (st.currentPostIndex + 1) % (posts.length : Int) := by
  simp only [handleCommandFeed, feedDispatch, feedCaseOf, String.reduceEq, reduceIte]
  by_cases hneg : st.currentPostIndex < 0
  · have h1 : st.currentPostIndex = -1 := by omega
    simp [hneg, h1]
  · simp only [hneg, if_false]
    exact tmod_eq_emod_of_nonneg _ _ (by omega) (by positivity)

/-- Witness for C3 at a concrete input: two posts, the second one current;
the index wraps to 0. -/
theorem nextPost_advances_index_mod_count_witness :
    ((handleCommandFeed
        (Except.ok ⟨"intent_next_post", ⟨Option.none, Option.none⟩⟩)
        (fun _ => Except.ok [])
        [{ id := "p1", authorName := "Alice", isSponsored := false },
         { id := "p2", authorName := "Bea", isSponsored := false }]
        ⟨1, false, false⟩).1).currentPostIndex
      = (1 + 1) % ((2 : Nat) : Int) :=
  nextPost_advances_index_mod_count ⟨Option.none, Option.none⟩ (fun _ => Except.ok [])
    [{ id := "p1", authorName := "Alice", isSponsored := false },
     { id := "p2", authorName := "Bea", isSponsored := false }]
    ⟨1, false, false⟩ (by decide) (by decide)

/-- C9: for every non-empty post list, dispatching a command classified as
`intent_previous_post` wraps backwards: from index 0 or −1 the index becomes
`posts.length − 1`, otherwise it decrements by one; playback is set to
playing in every case. -/
theorem previousPost_wraps_backwards (slots : Slots)
    (searchUsers : String → Except Unit (List String))
    (posts : List Post) (st : FeedState) (_hposts : posts ≠ []) :
    ((st.currentPostIndex = 0 ∨ st.currentPostIndex = -1) →
      ((handleCommandFeed (Except.ok ⟨"intent_previous_post", slots⟩) searchUsers posts st).1).currentPostIndex
        = (posts.length : Int) - 1)
    ∧ (0 < st.currentPostIndex →
      ((handleCommandFeed (Except.ok ⟨"intent_previous_post", slots⟩) searchUsers posts st).1).currentPostIndex
        = st.currentPostIndex - 1)
    ∧ ((handleCommandFeed (Except.ok ⟨"intent_previous_post", slots⟩) searchUsers posts st).1).isPlaying
        = true := by
  refine ⟨?_, ?_, ?_⟩
  · intro h
    simp only [handleCommandFeed, feedDispatch, feedCaseOf, String.reduceEq, reduceIte]
    rcases h with h | h <;> simp [h]
  · intro h
    simp only [handleCommandFeed, feedDispatch, feedCaseOf, String.reduceEq, reduceIte]
    simp only [gt_iff_lt, if_pos h]
  · simp [handleCommandFeed, feedDispatch, feedCaseOf]

/-- Witness for C9 at a concrete input: index 0 with two posts wraps to 1,
and playback turns on. -/
theorem previousPost_wraps_backwards_witness :
    ((handleCommandFeed
        (Except.ok ⟨"intent_previous_post", ⟨Option.none, Option.none⟩⟩)
        (fun _ => Except.ok [])
        [{ id := "p1", authorName := "Alice", isSponsored := false },
         { id := "p2", authorName := "Bea", isSponsored := false }]
        ⟨0, false, false⟩).1).currentPostIndex
      = ((2 : Nat) : Int) - 1 :=
  (previousPost_wraps_backwards ⟨Option.none, Option.none⟩ (fun _ => Except.ok [])
    [{ id := "p1", authorName := "Alice", isSponsored := false },
     { id := "p2", authorName := "Bea", isSponsored := false }]
    ⟨0, false, false⟩ (by decide)).1 (Or.inl rfl)

/-- C10: the mobile bottom navigation's mic button is disabled exactly in
the `PROCESSING` voice state (and enabled in `IDLE` and `LISTENING`), so the
`onMicClick` callback cannot fire while a command is being processed; the
`PROCESSING` FAB class also carries the `cursor-not-allowed` style. -/
theorem micButton_disabled_iff_processing :
    micButtonDisabled VoiceState.PROCESSING = true
    ∧ micButtonDisabled VoiceState.LISTENING = false
    ∧ micButtonDisabled VoiceState.IDLE = false
    ∧ micClickFires VoiceState.PROCESSING = false
    ∧ micClickFires VoiceState.LISTENING = true
    ∧ micClickFires VoiceState.IDLE = true
    ∧ getFabClass VoiceState.PROCESSING = fabBaseClass ++ " bg-yellow-600 cursor-not-allowed" := by
  refine ⟨rfl, rfl, rfl, rfl, rfl, rfl, rfl⟩

/-- The recording-state transition path exactly as the spec words it
(refinement target for C2): Idle → Recording on the record command,
Recording → Preview on the stop command, Preview → Uploading on the send
command, Preview → Recording on re-record; any other command/state pair
leaves the state unchanged. -/
def specRecordingPath (intent : String) (s : RecordingState) : RecordingState :=
  if s = RecordingState.IDLE ∧ intent = "intent_record_message" then RecordingState.RECORDING
  else if s = RecordingState.RECORDING ∧ intent = "intent_stop_recording" then RecordingState.PREVIEW
  else if s = RecordingState.PREVIEW ∧ intent = "intent_send_chat_message" then RecordingState.UPLOADING
  else if s = RecordingState.PREVIEW ∧ intent = "intent_re_record" then RecordingState.RECORDING
  else s

/-- C2: the message screen's command dispatcher moves the recording state
exactly along the spec's path — a command whose source state does not match
the current recording state is a no-op on it — and the upload-completion
continuation returns the state to `IDLE`. -/
theorem recordingState_follows_spec_path (intent : String) (slots : Slots)
    (confirmDelete : Bool) (themes : List String) (st : MsgState) (newMessage : Msg) :
    ((handleCommandMsg (Except.ok ⟨intent, slots⟩) confirmDelete themes st).1).recordingState
      = specRecordingPath intent st.recordingState
    ∧ ((sendMessageComplete newMessage st).1).recordingState = RecordingState.IDLE := by
  constructor
  · simp only [handleCommandMsg, msgDispatch, specRecordingPath, startRecordingM,
      stopRecordingM, sendMessageStart, handleDeleteChatM, handleThemeChangeM]
    repeat' split
    any_goals rfl
    any_goals simp_all
  · rfl

/-- The effect list of a dispatch outcome (empty for a thrown dispatch);
proof-side projection used by the completion-callback claim. -/
def dispatchEffects : Except Unit (FeedState × List FeedEffect) → List FeedEffect
  | Except.error _ => []
  | Except.ok out => out.2

/-- The dispatch switch of the feed screen never invokes the completion
callback itself (helper for the completion-callback claim). -/
theorem feedDispatch_no_completion (intent : String) (slots : Slots)
    (searchUsers : String → Except Unit (List String))
    (posts : List Post) (st : FeedState) :
    FeedEffect.commandProcessed
      ∉ dispatchEffects (feedDispatch intent slots searchUsers posts st) := by
  unfold feedDispatch
  cases hc : feedCaseOf intent
  all_goals (repeat' split)
  all_goals simp [dispatchEffects]

/-- The dispatch switch of the message screen never invokes the completion
callback itself (helper for the completion-callback claim). -/
theorem msgDispatch_no_completion (intent : String) (slots : Slots)
    (confirmDelete : Bool) (themes : List String) (st : MsgState) :
    MsgEffect.commandProcessed ∉ (msgDispatch intent slots confirmDelete themes st).2 := by
  unfold msgDispatch startRecordingM stopRecordingM sendMessageStart handleDeleteChatM
    handleThemeChangeM
  repeat' split
  all_goals (try simp)
  all_goals ((try split) <;> simp)

/-- C8: every command run through a screen dispatcher invokes the completion
callback (`onCommandProcessed`) exactly once — whether dispatch succeeds,
the dispatched action throws, or classification itself throws — on both the
feed screen and the message screen. -/
theorem commandProcessed_exactly_once
    (classifyFeed classifyMsg : Except Unit IntentResponse)
    (searchUsers : String → Except Unit (List String))
    (posts : List Post) (st : FeedState)
    (confirmDelete : Bool) (themes : List String) (mst : MsgState) :
    (handleCommandFeed classifyFeed searchUsers posts st).2.count FeedEffect.commandProcessed = 1
    ∧ (handleCommandMsg classifyMsg confirmDelete themes mst).2.count MsgEffect.commandProcessed = 1 := by
  constructor
  · unfold handleCommandFeed
    cases classifyFeed with
    | error e => simp [List.count_append, List.count_cons, List.count_nil]
    | ok resp =>
      cases hd : feedDispatch resp.intent resp.slots searchUsers posts st with
      | error e => simp [hd, List.count_append, List.count_cons, List.count_nil]
      | ok out =>
        have hno := feedDispatch_no_completion resp.intent resp.slots searchUsers posts st
        rw [hd] at hno
        simp only [dispatchEffects] at hno
        simp [hd, List.count_append, List.count_cons, List.count_nil,
          List.count_eq_zero.mpr hno]
  · unfold handleCommandMsg
    cases classifyMsg with
    | error e => simp [List.count_cons, List.count_nil]
    | ok resp =>
      have hno := msgDispatch_no_completion resp.intent resp.slots confirmDelete themes mst
      simp [List.count_append, List.count_cons, List.count_nil,
        List.count_eq_zero.mpr hno]

/-- C1 counterexample: dispatching a command with an unrecognized intent tag
on the message screen emits no user-facing message at all — the whole effect
trace is just the completion callback — contradicting the claim that the
message-screen dispatcher produces the generic fallback message. -/
theorem unknownIntent_msgScreen_counterexample :
    handleCommandMsg (Except.ok ⟨"intent_fly_to_the_moon", ⟨Option.none, Option.none⟩⟩)
        false ["default"] initMsgState
      = (initMsgState, [MsgEffect.commandProcessed]) := rfl

/-- C1 (amended): for every intent tag outside the handled enumerations, the
feed dispatcher emits exactly the generic fallback message followed by the
completion callback, while the message dispatcher emits exactly the
completion callback and no message; both leave the local screen state
unchanged and perform no navigation or external mutation. -/
theorem unknownIntent_fallback_and_frame (intent : String) (slots : Slots)
    (searchUsers : String → Except Unit (List String))
    (posts : List Post) (st : FeedState)
    (confirmDelete : Bool) (themes : List String) (mst : MsgState)
    (hf : intent ∉ feedHandledIntents) (hm : intent ∉ msgHandledIntents) :
    handleCommandFeed (Except.ok ⟨intent, slots⟩) searchUsers posts st
      = (st, [FeedEffect.tts ttsErrorGeneric, FeedEffect.commandProcessed])
    ∧ handleCommandMsg (Except.ok ⟨intent, slots⟩) confirmDelete themes mst
      = (mst, [MsgEffect.commandProcessed]) := by
  simp only [feedHandledIntents, msgHandledIntents, List.mem_cons,
    List.not_mem_nil, or_false, not_or] at hf hm
  obtain ⟨f1, f2, f3, f4, f5, f6, f7, f8, f9, f10, f11, f12, f13, f14, f15, f16, f17, f18⟩ := hf
  obtain ⟨m1, m2, m3, m4, m5, m6⟩ := hm
  constructor
  · simp [handleCommandFeed, feedDispatch, feedCaseOf, f1, f2, f3, f4, f5, f6, f7, f8, f9,
      f10, f11, f12, f13, f14, f15, f16, f17, f18]
  · simp [handleCommandMsg, msgDispatch, m1, m2, m3, m4, m5, m6]

/-- Witness for the amended C1 at the concrete unrecognized tag
`"intent_dance"`. -/
theorem unknownIntent_fallback_and_frame_witness :
    handleCommandFeed (Except.ok ⟨"intent_dance", ⟨Option.none, Option.none⟩⟩)
        (fun _ => Except.ok []) [] ⟨-1, false, false⟩
      = (⟨-1, false, false⟩, [FeedEffect.tts ttsErrorGeneric, FeedEffect.commandProcessed])
    ∧ handleCommandMsg (Except.ok ⟨"intent_dance", ⟨Option.none, Option.none⟩⟩)
        false ["default"] initMsgState
      = (initMsgState, [MsgEffect.commandProcessed]) :=
  unknownIntent_fallback_and_frame "intent_dance" ⟨Option.none, Option.none⟩
    (fun _ => Except.ok []) [] ⟨-1, false, false⟩ false ["default"] initMsgState
    (by decide) (by decide)

/-- C5 counterexample: with a feed whose only author is Alice, dispatching
`intent_open_profile` targeting the unknown name Bob navigates straight to
Bob's profile and emits no "couldn't find" message, contradicting the claim
for the open-profile intent. -/
theorem unknownTarget_openProfile_counterexample :
    handleCommandFeed
        (Except.ok ⟨"intent_open_profile", ⟨Option.some "Bob", Option.none⟩⟩)
        (fun _ => Except.ok [])
        [{ id := "p1", authorName := "Alice", isSponsored := false }]
        ⟨-1, false, false⟩
      = (⟨-1, false, false⟩,
         [FeedEffect.openProfile "Bob", FeedEffect.commandProcessed]) := rfl

/-- C5 (amended): for an intent carrying a truthy (present and non-empty)
`target_name` that matches no non-sponsored post author, `intent_like` and
the three comment-view intents emit exactly a "couldn't find" message plus
the completion callback — no state change, no navigation, no external
mutation — while `intent_open_profile` always navigates to the named
profile without consulting the feed. -/
theorem unknownTarget_feedDispatch (target : String) (slots : Slots)
    (searchUsers : String → Except Unit (List String))
    (posts : List Post) (st : FeedState)
    (hslots : slots.target_name = Option.some target) (htarget : target ≠ "")
    (hnone : posts.find? (fun p => !p.isSponsored && p.authorName = target) = Option.none) :
    handleCommandFeed (Except.ok ⟨"intent_like", slots⟩) searchUsers posts st
      = (st, [FeedEffect.tts ("I couldn't find a post by " ++ target ++ " to like."),
          FeedEffect.commandProcessed])
    ∧ (∀ ci ∈ ["intent_comment", "intent_view_comments", "intent_view_comments_by_author"],
        handleCommandFeed (Except.ok ⟨ci, slots⟩) searchUsers posts st
          = (st, [FeedEffect.tts ("I can't find a post by " ++ target ++ " to view comments on."),
              FeedEffect.commandProcessed]))
    ∧ handleCommandFeed (Except.ok ⟨"intent_open_profile", slots⟩) searchUsers posts st
      = (st, [FeedEffect.openProfile target, FeedEffect.commandProcessed]) := by
  refine ⟨?_, ?_, ?_⟩
  · simp [handleCommandFeed, feedDispatch, feedCaseOf, truthySlot, hslots, htarget, hnone]
  · intro ci hci
    simp only [List.mem_cons, List.not_mem_nil, or_false] at hci
    rcases hci with rfl | rfl | rfl <;>
      simp [handleCommandFeed, feedDispatch, feedCaseOf, truthySlot, hslots, htarget, hnone]
  · simp [handleCommandFeed, feedDispatch, feedCaseOf, truthySlot, hslots, htarget]

/-- Witness for the amended C5: liking by the unknown name Bob on a feed
authored only by Alice yields the couldn't-find message. -/
theorem unknownTarget_feedDispatch_witness :
    handleCommandFeed (Except.ok ⟨"intent_like", ⟨Option.some "Bob", Option.none⟩⟩)
        (fun _ => Except.ok [])
        [{ id := "p1", authorName := "Alice", isSponsored := false }]
        ⟨-1, false, false⟩
      = (⟨-1, false, false⟩,
         [FeedEffect.tts ("I couldn't find a post by " ++ "Bob" ++ " to like."),
          FeedEffect.commandProcessed]) :=
  (unknownTarget_feedDispatch "Bob" ⟨Option.some "Bob", Option.none⟩ (fun _ => Except.ok [])
    [{ id := "p1", authorName := "Alice", isSponsored := false }] ⟨-1, false, false⟩
    rfl (by decide) (by decide)).1

/-- C6 counterexample: when classification throws on the message screen, the
catch block only logs to the console — the effect trace contains no TTS
message at all — contradicting the claim that both screens surface a generic
user-facing error message. -/
theorem classifierFailure_msgScreen_counterexample :
    handleCommandMsg (Except.error ()) false ["default"] initMsgState
      = (initMsgState, [MsgEffect.commandProcessed]) := rfl

/-- C6 (amended): when the intent call throws, or a dispatched action
throws (a rejected `searchUsers` call for a truthy, non-empty query), the
feed screen surfaces the generic error prompt and completes, while the
message screen completes silently with no user-facing message. -/
theorem classifierFailure_generic_error (slots : Slots) (query : String)
    (searchUsers : String → Except Unit (List String))
    (posts : List Post) (st : FeedState)
    (confirmDelete : Bool) (themes : List String) (mst : MsgState)
    (hq : slots.target_name = Option.some query) (hquery : query ≠ "")
    (hfail : searchUsers query = Except.error ()) :
    handleCommandFeed (Except.error ()) searchUsers posts st
      = (st, [FeedEffect.tts ttsErrorGeneric, FeedEffect.commandProcessed])
    ∧ handleCommandFeed (Except.ok ⟨"intent_search_user", slots⟩) searchUsers posts st
      = (st, [FeedEffect.tts ttsErrorGeneric, FeedEffect.commandProcessed])
    ∧ handleCommandMsg (Except.error ()) confirmDelete themes mst
      = (mst, [MsgEffect.commandProcessed]) := by
  refine ⟨rfl, ?_, rfl⟩
  simp [handleCommandFeed, feedDispatch, feedCaseOf, truthySlot, hq, hquery, hfail]

/-- Witness for the amended C6 at a concrete rejected search call. -/
theorem classifierFailure_generic_error_witness :
    handleCommandFeed (Except.ok ⟨"intent_search_user", ⟨Option.some "Ann", Option.none⟩⟩)
        (fun _ => Except.error ()) [] ⟨-1, false, false⟩
      = (⟨-1, false, false⟩,
         [FeedEffect.tts ttsErrorGeneric, FeedEffect.commandProcessed]) :=
  (classifierFailure_generic_error ⟨Option.some "Ann", Option.none⟩ "Ann"
    (fun _ => Except.error ()) [] ⟨-1, false, false⟩ false ["default"] initMsgState
    rfl (by decide) rfl).2.1

end SocialVoice
